import Mathlib

/-!
Shallow embedding of `src/stream_handler.rs` of the Weylus repository:
the per-connection stream handlers (`PointerStreamHandler` and
`ScreenStreamHandler`).

Modelling choices, all read off the source:
* Times (`std::time::Instant`, `std::time::Duration`) are natural numbers of
  nanoseconds; `Duration::as_millis` is division by `10^6`.  Subtraction of
  instants saturates at zero, like `Instant::sub` (via `duration_since`).
* External capabilities (clock, screen capture, encoder construction,
  websocket writes) are oracle inputs to one `process` call, collected in
  `TickInput`.
* Side effects are recorded as an ordered event list (`ScreenEffect`,
  `PtrEffect`); log calls record their severity.
* The `unwrap`s on the optional encoder binding are modelled by returning
  `Option`: a `none` result marks a panic of such an `unwrap`.
-/

/-- `websocket::OwnedMessage`: the inbound frame variants. -/
inductive OwnedMessage where
  | text (s : String)
  | binary (data : List Nat)
  | ping (data : List Nat)
  | pong (data : List Nat)
  | close
  deriving DecidableEq

/-- `std::io::ErrorKind`, reduced to the distinction the code makes. -/
inductive IoErrorKind where
  | brokenPipe
  | otherKind
  deriving DecidableEq

/-- `websocket::WebSocketError`: an IO error with its kind, or any other
error; `msg` is its `Display` rendering. -/
inductive WebSocketError where
  | ioError (kind : IoErrorKind) (msg : String)
  | otherError (msg : String)
  deriving DecidableEq

/-- The `Display` rendering of a websocket error. -/
def WebSocketError.message : WebSocketError → String
  | WebSocketError.ioError _ msg => msg
  | WebSocketError.otherError msg => msg

/-- Whether the error is an IO error of kind broken pipe. -/
def WebSocketError.isBrokenPipe : WebSocketError → Bool
  | WebSocketError.ioError IoErrorKind.brokenPipe _ => true
  | _ => false

/-- Modelled from the spec: the `PointerEvent` payload of `NetMessage`
(`src/protocol.rs` is not among the sources).  Per spec section 3 it carries
device-reported coordinates, pressure, tilt, button/contact state and a
logical pointer identifier; none of its fields are inspected by the
handlers. -/
structure PointerEvent where
  x : Int
  y : Int
  pressure : Nat
  tiltX : Int
  tiltY : Int
  buttons : Nat
  pointerId : Nat
  deriving DecidableEq

/-- Modelled from the spec: `NetMessage` (`src/protocol.rs` is not among the
sources), a tagged union with the single variant `PointerEvent`. -/
inductive NetMessage where
  | pointerEvent (event : PointerEvent)
  deriving DecidableEq

/-- Observable effects of `PointerStreamHandler::process`. -/
inductive PtrEffect where
  | logTrace (msg : String)
  | logWarn (msg : String)
  | sendEvent (event : PointerEvent)
  deriving DecidableEq

/-- Whether a pointer effect is a device dispatch (`send_event`). -/
def PtrEffect.isSendEvent : PtrEffect → Bool
  | PtrEffect.sendEvent _ => true
  | _ => false

/-- Whether a pointer effect is a warning-level log entry. -/
def PtrEffect.isWarn : PtrEffect → Bool
  | PtrEffect.logWarn _ => true
  | _ => false

/-- `PointerStreamHandler::process` (src/stream_handler.rs lines 30 to 44).
JSON decoding (`serde_json::from_str::<NetMessage>`) is external to the file
and is passed in as `decode`, returning either the decoded message or the
decode error's rendering.  The handler has no state of its own; its behaviour
is the list of effects. -/
def PointerStreamHandler.process (decode : String → Except String NetMessage) :
    OwnedMessage → List PtrEffect
  | OwnedMessage.text s =>
    PtrEffect.logTrace ("Pointerevent: " ++ s) ::
      (match decode s with
       | Except.ok (NetMessage.pointerEvent event) => [PtrEffect.sendEvent event]
       | Except.error err => [PtrEffect.logWarn ("Unable to parse message: " ++ err)])
  | _ => []

/-- A constructed video encoder as the stream handler sees it: the
dimensions it was constructed for (`src/video` is not among the sources; the
handler only ever queries `check_size` and calls `encode`). -/
structure VideoEncoder where
  width : Nat
  height : Nat
  deriving DecidableEq

/-- Modelled from the spec: `VideoEncoder::check_size(width, height)`
(`src/video` is not among the sources).  Per spec section 4.3 step 4 and
section 6, it compares the given dimensions against those the encoder was
constructed for. -/
def VideoEncoder.check_size (e : VideoEncoder) (width height : Nat) : Bool :=
  e.width == width && e.height == height

/-- `VideoEncoder::new(width, height, callback)` (external, fallible): the
oracle `init` says whether construction fails and with which error
rendering; on success the encoder is bound to the given dimensions. -/
def VideoEncoder.new (width height : Nat) (init : Option String) :
    Except String VideoEncoder :=
  match init with
  | none => Except.ok ⟨width, height⟩
  | some err => Except.error err

/-- Nanoseconds per millisecond: `Duration::as_millis` divides by this. -/
def nsPerMs : Nat := 1000000

/-- The state of `ScreenStreamHandler` (src/stream_handler.rs lines 47 to
52): the optional encoder binding, the configured update interval and the
time of the last completed cycle, both in nanoseconds.  The screen-capture
capability holds no state this file observes; its outputs are oracle
inputs. -/
structure ScreenStreamHandler where
  video_encoder : Option VideoEncoder
  update_interval : Nat
  last_update : Nat
  deriving DecidableEq

/-- The external world during one `process` call: the clock readings (the
`Instant::now()` at entry, line 69, and the one written to `last_update`,
line 119), the dimensions the capture reports, whether `VideoEncoder::new`
fails (`some err`) or succeeds (`none`), and the results of the two possible
tick-path websocket writes (`none` is success). -/
structure TickInput where
  now : Nat
  now2 : Nat
  captureWidth : Nat
  captureHeight : Nat
  encoderInit : Option String
  rateSendResult : Option WebSocketError
  newSendResult : Option WebSocketError
  deriving DecidableEq

/-- Observable effects of `ScreenStreamHandler::process` and of the encoder
emission callback, in program order. -/
inductive ScreenEffect where
  | sendText (s : String)
  | sendBinary (data : List Nat)
  | logTrace (msg : String)
  | logWarn (msg : String)
  | capture
  | constructEncoder (width height : Nat)
  | encoderCreated (width height : Nat)
  | encode (width height : Nat)
  deriving DecidableEq

/-- Whether the effect is a text frame write. -/
def ScreenEffect.isSendText : ScreenEffect → Bool
  | ScreenEffect.sendText _ => true
  | _ => false

/-- Whether the effect is the text frame carrying exactly `"new"`. -/
def ScreenEffect.isNewFrame : ScreenEffect → Bool
  | ScreenEffect.sendText s => s == "new"
  | _ => false

/-- Whether the effect is the capture call on the screen-capture
capability. -/
def ScreenEffect.isCapture : ScreenEffect → Bool
  | ScreenEffect.capture => true
  | _ => false

/-- Whether the effect is a warning-level log entry. -/
def ScreenEffect.isWarn : ScreenEffect → Bool
  | ScreenEffect.logWarn _ => true
  | _ => false

/-- Whether the effect is a trace-level log entry. -/
def ScreenEffect.isTrace : ScreenEffect → Bool
  | ScreenEffect.logTrace _ => true
  | _ => false

/-- Whether the effect is a `VideoEncoder::new` call (an attempt). -/
def ScreenEffect.isConstruct : ScreenEffect → Bool
  | ScreenEffect.constructEncoder _ _ => true
  | _ => false

/-- Whether the effect is a successful encoder construction (the assignment
`self.video_encoder = Some(..)`, line 115). -/
def ScreenEffect.isCreated : ScreenEffect → Bool
  | ScreenEffect.encoderCreated _ _ => true
  | _ => false

/-- Whether the effect is an `encode` call on the bound encoder. -/
def ScreenEffect.isEncode : ScreenEffect → Bool
  | ScreenEffect.encode _ _ => true
  | _ => false

/-- Whether the effect touches the encoder at all (construction attempt,
successful construction, or encoding). -/
def ScreenEffect.isEncoderActivity : ScreenEffect → Bool
  | ScreenEffect.constructEncoder _ _ => true
  | ScreenEffect.encoderCreated _ _ => true
  | ScreenEffect.encode _ _ => true
  | _ => false

/-- Tick-path send error handling (lines 76 to 78 and 91 to 93): any
failed write logs one warning with the error's rendering; success logs
nothing. -/
def sendWarnLogs : Option WebSocketError → List ScreenEffect
  | none => []
  | some err => [ScreenEffect.logWarn ("Error sending video: " ++ err.message)]

/-- The encoder emission callback (lines 94 to 110): wrap the chunk as a
binary frame and send it; on failure classify the error: a broken-pipe IO
error is logged at trace level, any other failure as a warning.  `res` is
the oracle result of that write (`none` is success). -/
def emitCallback (data : List Nat) (res : Option WebSocketError) : List ScreenEffect :=
  ScreenEffect.sendBinary data ::
    (match res with
     | none => []
     | some (WebSocketError.ioError kind msg) =>
       if kind == IoErrorKind.brokenPipe then
         [ScreenEffect.logTrace ("Error sending video: " ++ msg)]
       else
         [ScreenEffect.logWarn ("Error sending video: " ++ msg)]
     | some (WebSocketError.otherError msg) =>
       [ScreenEffect.logWarn ("Error sending video: " ++ msg)])

/-- The encoder-restart condition of line 84 to 90: no encoder is bound, or
the bound one fails `check_size` for the captured dimensions.  The `match`
renders the short-circuit `is_none() || !as_ref().unwrap().check_size(..)`,
whose `unwrap` the short-circuit protects. -/
def ScreenStreamHandler.needsReinit (st : ScreenStreamHandler) (width height : Nat) : Bool :=
  match st.video_encoder with
  | none => true
  | some enc => !enc.check_size width height

/-- Lines 117 to 119: `self.video_encoder.as_mut().unwrap().encode(..)` then
`self.last_update = Instant::now()`.  A `none` binding here is the `unwrap`
panic, rendered as a `none` result. -/
def ScreenStreamHandler.encodeStep (st : ScreenStreamHandler) (evs : List ScreenEffect)
    (inp : TickInput) : Option (ScreenStreamHandler × List ScreenEffect) :=
  match st.video_encoder with
  | none => none
  | some enc =>
    some ({ st with last_update := inp.now2 },
      evs ++ [ScreenEffect.encode enc.width enc.height])

/-- `ScreenStreamHandler::process` (src/stream_handler.rs lines 66 to 123).
Any text frame is a tick: if the elapsed time since `last_update` is below
`update_interval`, send the backpressure frame `"@<remaining ms>"` and stop;
otherwise capture, rebuild the encoder if absent or of the wrong size
(sending `"new"` first, aborting the tick if construction fails), encode,
and set `last_update`.  Non-text frames do nothing. -/
def ScreenStreamHandler.process (st : ScreenStreamHandler) (inp : TickInput) :
    OwnedMessage → Option (ScreenStreamHandler × List ScreenEffect)
  | OwnedMessage.text _ =>
    let now := inp.now
    let interval := now - st.last_update
    if interval < st.update_interval then
      some (st,
        ScreenEffect.sendText ("@" ++ toString ((st.update_interval - interval) / nsPerMs)) ::
          sendWarnLogs inp.rateSendResult)
    else
      let width := inp.captureWidth
      let height := inp.captureHeight
      if st.needsReinit width height then
        let evs := ScreenEffect.capture :: ScreenEffect.sendText "new" ::
          (sendWarnLogs inp.newSendResult ++ [ScreenEffect.constructEncoder width height])
        match VideoEncoder.new width height inp.encoderInit with
        | Except.error err => some (st, evs ++ [ScreenEffect.logWarn err])
        | Except.ok enc =>
          ScreenStreamHandler.encodeStep { st with video_encoder := some enc }
            (evs ++ [ScreenEffect.encoderCreated width height]) inp
      else
        ScreenStreamHandler.encodeStep st [ScreenEffect.capture] inp
  | _ => some (st, [])

/-- A run of consecutive ticks (text frames) against the screen handler,
threading the state and concatenating the effects; `none` if any tick
panics. -/
def ScreenStreamHandler.processTicks (st : ScreenStreamHandler) :
    List TickInput → Option (ScreenStreamHandler × List ScreenEffect)
  | [] => some (st, [])
  | inp :: rest =>
    match ScreenStreamHandler.process st inp (OwnedMessage.text "f") with
    | none => none
    | some (st1, evs) =>
      match ScreenStreamHandler.processTicks st1 rest with
      | none => none
      | some (st2, evs2) => some (st2, evs ++ evs2)

/-! ### Branch characterizations of `ScreenStreamHandler.process` -/

/-- Rate-limited branch (lines 71 to 80). -/
theorem process_rate_eq (st : ScreenStreamHandler) (inp : TickInput) (s : String)
    (h : inp.now - st.last_update < st.update_interval) :
    ScreenStreamHandler.process st inp (OwnedMessage.text s) =
      some (st, ScreenEffect.sendText
          ("@" ++ toString ((st.update_interval - (inp.now - st.last_update)) / nsPerMs)) ::
        sendWarnLogs inp.rateSendResult) := by
  simp only [ScreenStreamHandler.process, if_pos h]

/-- Reinit branch with failing construction (lines 81 to 114). -/
theorem process_reinit_fail_eq (st : ScreenStreamHandler) (inp : TickInput) (s err : String)
    (hge : ¬ inp.now - st.last_update < st.update_interval)
    (hre : st.needsReinit inp.captureWidth inp.captureHeight = true)
    (hfail : inp.encoderInit = some err) :
    ScreenStreamHandler.process st inp (OwnedMessage.text s) =
      some (st, ScreenEffect.capture :: ScreenEffect.sendText "new" ::
        (sendWarnLogs inp.newSendResult ++
          [ScreenEffect.constructEncoder inp.captureWidth inp.captureHeight,
           ScreenEffect.logWarn err])) := by
  simp only [ScreenStreamHandler.process, if_neg hge, hre, if_true, VideoEncoder.new, hfail]
  simp

/-- Reinit branch with successful construction (lines 81 to 119). -/
theorem process_reinit_ok_eq (st : ScreenStreamHandler) (inp : TickInput) (s : String)
    (hge : ¬ inp.now - st.last_update < st.update_interval)
    (hre : st.needsReinit inp.captureWidth inp.captureHeight = true)
    (hok : inp.encoderInit = none) :
    ScreenStreamHandler.process st inp (OwnedMessage.text s) =
      some (⟨some ⟨inp.captureWidth, inp.captureHeight⟩, st.update_interval, inp.now2⟩,
        ScreenEffect.capture :: ScreenEffect.sendText "new" ::
        (sendWarnLogs inp.newSendResult ++
          [ScreenEffect.constructEncoder inp.captureWidth inp.captureHeight,
           ScreenEffect.encoderCreated inp.captureWidth inp.captureHeight,
           ScreenEffect.encode inp.captureWidth inp.captureHeight])) := by
  simp only [ScreenStreamHandler.process, if_neg hge, hre, if_true, VideoEncoder.new, hok,
    ScreenStreamHandler.encodeStep]
  simp

/-- No-reinit branch (lines 81 to 119 with the condition of line 84 false):
the bound encoder matches the captured size and is reused. -/
theorem process_noreinit_eq (st : ScreenStreamHandler) (inp : TickInput) (s : String)
    (enc : VideoEncoder)
    (hge : ¬ inp.now - st.last_update < st.update_interval)
    (henc : st.video_encoder = some enc)
    (hsz : enc.check_size inp.captureWidth inp.captureHeight = true) :
    ScreenStreamHandler.process st inp (OwnedMessage.text s) =
      some ({ st with last_update := inp.now2 },
        [ScreenEffect.capture, ScreenEffect.encode enc.width enc.height]) := by
  have hre : st.needsReinit inp.captureWidth inp.captureHeight = false := by
    simp [ScreenStreamHandler.needsReinit, henc, hsz]
  simp only [ScreenStreamHandler.process, if_neg hge, hre, if_false,
    ScreenStreamHandler.encodeStep, henc]
  rfl

/-- Non-text frames are a no-op for the screen handler (lines 121 to 122). -/
theorem process_nontext_eq (st : ScreenStreamHandler) (inp : TickInput) (m : OwnedMessage)
    (h : ∀ s, m ≠ OwnedMessage.text s) :
    ScreenStreamHandler.process st inp m = some (st, []) := by
  cases m with
  | text s => exact absurd rfl (h s)
  | binary d => rfl
  | ping d => rfl
  | pong d => rfl
  | close => rfl

/-- `process` never panics: the `unwrap`s on the encoder binding never see
`none`. -/
theorem process_isSome (st : ScreenStreamHandler) (inp : TickInput) (m : OwnedMessage) :
    (ScreenStreamHandler.process st inp m).isSome = true := by
  cases m with
  | text s =>
    by_cases hlt : inp.now - st.last_update < st.update_interval
    · rw [process_rate_eq st inp s hlt]; rfl
    · by_cases hre : st.needsReinit inp.captureWidth inp.captureHeight = true
      · cases hfail : inp.encoderInit with
        | none => rw [process_reinit_ok_eq st inp s hlt hre hfail]; rfl
        | some err => rw [process_reinit_fail_eq st inp s err hlt hre hfail]; rfl
      · have hre2 : st.needsReinit inp.captureWidth inp.captureHeight = false := by
          simpa using hre
        cases henc : st.video_encoder with
        | none =>
          exact absurd (by simp [ScreenStreamHandler.needsReinit, henc]) hre
        | some enc =>
          have hsz : enc.check_size inp.captureWidth inp.captureHeight = true := by
            have := hre2
            simp [ScreenStreamHandler.needsReinit, henc] at this
            exact this
          rw [process_noreinit_eq st inp s enc hlt henc hsz]; rfl
  | binary d => rfl
  | ping d => rfl
  | pong d => rfl
  | close => rfl

/-! ### Claim theorems: pointer channel and panic safety -/

/-- C5: for a text frame on the pointer channel whose body fails `NetMessage`
decoding, `send_event` is never invoked, exactly one warning is logged, and
the handler returns normally with exactly the trace and warning effects. -/
theorem pointer_malformed_never_dispatches (decode : String → Except String NetMessage)
    (s err : String) (h : decode s = Except.error err) :
    (PointerStreamHandler.process decode (OwnedMessage.text s)).countP PtrEffect.isSendEvent = 0 ∧
    (PointerStreamHandler.process decode (OwnedMessage.text s)).countP PtrEffect.isWarn = 1 ∧
    PointerStreamHandler.process decode (OwnedMessage.text s) =
      [PtrEffect.logTrace ("Pointerevent: " ++ s),
       PtrEffect.logWarn ("Unable to parse message: " ++ err)] := by
  simp [PointerStreamHandler.process, h, List.countP_cons, PtrEffect.isSendEvent, PtrEffect.isWarn]

/-- Witness for C5 at the decode oracle that rejects everything and the body
"not json". -/
theorem pointer_malformed_never_dispatches_witness :
    ((fun _ => Except.error "expected value") : String → Except String NetMessage) "not json" =
      Except.error "expected value" ∧
    (PointerStreamHandler.process (fun _ => Except.error "expected value")
      (OwnedMessage.text "not json")).countP PtrEffect.isSendEvent = 0 ∧
    (PointerStreamHandler.process (fun _ => Except.error "expected value")
      (OwnedMessage.text "not json")).countP PtrEffect.isWarn = 1 ∧
    PointerStreamHandler.process (fun _ => Except.error "expected value")
      (OwnedMessage.text "not json") =
      [PtrEffect.logTrace ("Pointerevent: " ++ "not json"),
       PtrEffect.logWarn ("Unable to parse message: " ++ "expected value")] :=
  ⟨rfl, pointer_malformed_never_dispatches (fun _ => Except.error "expected value")
    "not json" "expected value" rfl⟩

/-- C6: a text frame that decodes to a `NetMessage::PointerEvent` is
dispatched to the input device exactly once, unconditionally: the effect
list is the trace log followed by exactly that one `send_event`. -/
theorem pointer_event_dispatched_once (decode : String → Except String NetMessage)
    (s : String) (event : PointerEvent)
    (h : decode s = Except.ok (NetMessage.pointerEvent event)) :
    (PointerStreamHandler.process decode (OwnedMessage.text s)).countP PtrEffect.isSendEvent = 1 ∧
    PtrEffect.sendEvent event ∈ PointerStreamHandler.process decode (OwnedMessage.text s) ∧
    PointerStreamHandler.process decode (OwnedMessage.text s) =
      [PtrEffect.logTrace ("Pointerevent: " ++ s), PtrEffect.sendEvent event] := by
  simp [PointerStreamHandler.process, h, List.countP_cons, PtrEffect.isSendEvent]

/-- Witness for C6 at a decode oracle returning a fixed pointer event. -/
theorem pointer_event_dispatched_once_witness :
    ((fun _ => Except.ok (NetMessage.pointerEvent ⟨10, 20, 3, 0, 0, 1, 7⟩)) :
        String → Except String NetMessage) "m" =
      Except.ok (NetMessage.pointerEvent ⟨10, 20, 3, 0, 0, 1, 7⟩) ∧
    (PointerStreamHandler.process
        (fun _ => Except.ok (NetMessage.pointerEvent ⟨10, 20, 3, 0, 0, 1, 7⟩))
        (OwnedMessage.text "m")).countP PtrEffect.isSendEvent = 1 ∧
    PtrEffect.sendEvent ⟨10, 20, 3, 0, 0, 1, 7⟩ ∈
      PointerStreamHandler.process
        (fun _ => Except.ok (NetMessage.pointerEvent ⟨10, 20, 3, 0, 0, 1, 7⟩))
        (OwnedMessage.text "m") ∧
    PointerStreamHandler.process
        (fun _ => Except.ok (NetMessage.pointerEvent ⟨10, 20, 3, 0, 0, 1, 7⟩))
        (OwnedMessage.text "m") =
      [PtrEffect.logTrace ("Pointerevent: " ++ "m"),
       PtrEffect.sendEvent ⟨10, 20, 3, 0, 0, 1, 7⟩] :=
  ⟨rfl, pointer_event_dispatched_once
    (fun _ => Except.ok (NetMessage.pointerEvent ⟨10, 20, 3, 0, 0, 1, 7⟩)) "m"
    ⟨10, 20, 3, 0, 0, 1, 7⟩ rfl⟩

/-- C8: any non-text inbound message is a no-op for both handlers: the
pointer handler produces no effect, and the screen handler produces no
effect and leaves its whole state (encoder binding, last_update)
unchanged; neither treats the message as an error. -/
theorem nontext_frames_are_noops (decode : String → Except String NetMessage)
    (st : ScreenStreamHandler) (inp : TickInput) (m : OwnedMessage)
    (h : ∀ s, m ≠ OwnedMessage.text s) :
    PointerStreamHandler.process decode m = [] ∧
    ScreenStreamHandler.process st inp m = some (st, []) := by
  refine ⟨?_, process_nontext_eq st inp m h⟩
  cases m with
  | text s => exact absurd rfl (h s)
  | binary d => rfl
  | ping d => rfl
  | pong d => rfl
  | close => rfl

/-- Witness for C8 at a ping frame. -/
theorem nontext_frames_are_noops_witness :
    PointerStreamHandler.process (fun _ => Except.error "e") (OwnedMessage.ping [1, 2]) = [] ∧
    ScreenStreamHandler.process ⟨some ⟨100, 100⟩, 40 * nsPerMs, 7⟩
      ⟨0, 0, 0, 0, none, none, none⟩ (OwnedMessage.ping [1, 2]) =
      some (⟨some ⟨100, 100⟩, 40 * nsPerMs, 7⟩, []) :=
  nontext_frames_are_noops (fun _ => Except.error "e") ⟨some ⟨100, 100⟩, 40 * nsPerMs, 7⟩
    ⟨0, 0, 0, 0, none, none, none⟩ (OwnedMessage.ping [1, 2])
    (fun _ hs => OwnedMessage.noConfusion hs)

/-- C9: the `unwrap`s of the optional encoder binding in
`ScreenStreamHandler::process` never panic: on every input (state, oracle
inputs, message) the modelled process, whose `none` result marks exactly a
panic at those unwrap sites, returns `some`. -/
theorem screen_unwraps_never_panic (st : ScreenStreamHandler) (inp : TickInput)
    (m : OwnedMessage) : (ScreenStreamHandler.process st inp m).isSome = true :=
  process_isSome st inp m

/-! ### Claim theorems: rate limiting (C1) -/

/-- C1 counterexample: `update_interval` is 5 ms and the tick arrives
4999999 ns after `last_update`, hence rate-limited, yet the one control
frame sent is `"@0"`: the remaining duration of 1 ns has
`as_millis() = 0`, so the claimed bound `0 < k` fails (`"@0"` is
`"@" ++ toString 0` and `0 < 0` is false). -/
theorem screen_rate_limit_zero_cex :
    (5 * nsPerMs - 1) - 0 < 5 * nsPerMs ∧
    ScreenStreamHandler.process ⟨none, 5 * nsPerMs, 0⟩
        ⟨5 * nsPerMs - 1, 0, 0, 0, none, none, none⟩ (OwnedMessage.text "t") =
      some (⟨none, 5 * nsPerMs, 0⟩, [ScreenEffect.sendText "@0"]) ∧
    "@0" = "@" ++ toString 0 ∧ ¬ 0 < 0 := by
  refine ⟨by decide, by decide, rfl, by decide⟩

/-- C1 (amended): on a tick arriving while `now - last_update` is less than
`update_interval`, the handler sends exactly one text control frame
`"@k"`, where `k` is the remaining time in whole milliseconds and
`0 ≤ k ≤ N` for an `update_interval` of `N` ms; there is no capture and no
encoder activity, and the state — `last_update` included — is unchanged.
(The spec claims `0 < k`; that fails exactly when the tick lands within the
last millisecond before the deadline, as the counterexample shows.) -/
theorem screen_rate_limit_backpressure (st : ScreenStreamHandler) (inp : TickInput) (s : String)
    (h : inp.now - st.last_update < st.update_interval) :
    ∃ k evs,
      ScreenStreamHandler.process st inp (OwnedMessage.text s) = some (st, evs) ∧
      evs = ScreenEffect.sendText ("@" ++ toString k) :: sendWarnLogs inp.rateSendResult ∧
      k = (st.update_interval - (inp.now - st.last_update)) / nsPerMs ∧
      k ≤ st.update_interval / nsPerMs ∧
      evs.countP ScreenEffect.isSendText = 1 ∧
      evs.countP ScreenEffect.isEncoderActivity = 0 ∧
      ScreenEffect.capture ∉ evs := by
  refine ⟨_, _, process_rate_eq st inp s h, rfl, rfl,
    Nat.div_le_div_right (Nat.sub_le _ _), ?_, ?_, ?_⟩ <;>
    cases hr : inp.rateSendResult <;>
      simp [sendWarnLogs, List.countP_cons, ScreenEffect.isSendText,
        ScreenEffect.isEncoderActivity]

/-- Witness for C1 (amended): `update_interval` 5 ms, tick 2 ms after
`last_update`. -/
theorem screen_rate_limit_backpressure_witness :
    ((⟨2 * nsPerMs, 9, 100, 100, none, none, none⟩ : TickInput).now -
        (⟨none, 5 * nsPerMs, 0⟩ : ScreenStreamHandler).last_update <
      (⟨none, 5 * nsPerMs, 0⟩ : ScreenStreamHandler).update_interval) ∧
    (∃ k evs,
      ScreenStreamHandler.process ⟨none, 5 * nsPerMs, 0⟩ ⟨2 * nsPerMs, 9, 100, 100, none, none, none⟩
          (OwnedMessage.text "t") = some (⟨none, 5 * nsPerMs, 0⟩, evs) ∧
      evs = ScreenEffect.sendText ("@" ++ toString k) ::
        sendWarnLogs (⟨2 * nsPerMs, 9, 100, 100, none, none, none⟩ : TickInput).rateSendResult ∧
      k = ((⟨none, 5 * nsPerMs, 0⟩ : ScreenStreamHandler).update_interval -
        (2 * nsPerMs - 0)) / nsPerMs ∧
      k ≤ (⟨none, 5 * nsPerMs, 0⟩ : ScreenStreamHandler).update_interval / nsPerMs ∧
      evs.countP ScreenEffect.isSendText = 1 ∧
      evs.countP ScreenEffect.isEncoderActivity = 0 ∧
      ScreenEffect.capture ∉ evs) :=
  ⟨by decide, screen_rate_limit_backpressure ⟨none, 5 * nsPerMs, 0⟩
    ⟨2 * nsPerMs, 9, 100, 100, none, none, none⟩ "t" (by decide)⟩

/-! ### Claim theorems: the capture-encode cycle (C2) -/

/-- C2: a tick with `now - last_update >= update_interval` performs the
cycle: capture is invoked exactly once and, unless the tick is aborted by a
failed encoder construction, the pixel data of the captured frame is fed to
the bound encoder (capture strictly before the one encode call) and
`last_update` is set to the clock reading taken after encoding; on an
aborted tick there is no encode and the state is unchanged; and on every
rate-limited tick (any `inp2` with elapsed below the interval) there is no
capture, no encode, and the state — `last_update` included — is
unchanged. -/
theorem screen_cycle_on_eligible_tick (st : ScreenStreamHandler) (inp : TickInput)
    (s : String)
    (h : st.update_interval ≤ inp.now - st.last_update) :
    (∃ st2 evs, ScreenStreamHandler.process st inp (OwnedMessage.text s) = some (st2, evs) ∧
      evs.countP ScreenEffect.isCapture = 1 ∧
      ((st.needsReinit inp.captureWidth inp.captureHeight && inp.encoderInit.isSome) = true →
        evs.countP ScreenEffect.isEncode = 0 ∧ st2 = st) ∧
      ((st.needsReinit inp.captureWidth inp.captureHeight && inp.encoderInit.isSome) = false →
        (∃ mid, evs = ScreenEffect.capture :: mid ++
          [ScreenEffect.encode inp.captureWidth inp.captureHeight]) ∧
        evs.countP ScreenEffect.isEncode = 1 ∧
        st2.last_update = inp.now2)) ∧
    (∀ inp2 : TickInput, inp2.now - st.last_update < st.update_interval →
      ∃ evs2, ScreenStreamHandler.process st inp2 (OwnedMessage.text s) = some (st, evs2) ∧
        evs2.countP ScreenEffect.isCapture = 0 ∧
        evs2.countP ScreenEffect.isEncode = 0) := by
  have hnlt : ¬ inp.now - st.last_update < st.update_interval := not_lt.mpr h
  constructor
  · by_cases hre : st.needsReinit inp.captureWidth inp.captureHeight = true
    · cases hini : inp.encoderInit with
      | some err =>
        refine ⟨st, _, process_reinit_fail_eq st inp s err hnlt hre hini, ?_, ?_, ?_⟩
        · cases hw : inp.newSendResult <;>
            simp [sendWarnLogs, List.countP_cons, ScreenEffect.isCapture]
        · refine fun _ => ⟨?_, rfl⟩
          cases hw : inp.newSendResult <;>
            simp [sendWarnLogs, List.countP_cons, ScreenEffect.isEncode]
        · intro hfalse
          rw [hre] at hfalse
          simp at hfalse
      | none =>
        refine ⟨_, _, process_reinit_ok_eq st inp s hnlt hre hini, ?_, ?_, ?_⟩
        · cases hw : inp.newSendResult <;>
            simp [sendWarnLogs, List.countP_cons, ScreenEffect.isCapture]
        · intro htrue
          simp at htrue
        · refine fun _ => ⟨⟨ScreenEffect.sendText "new" ::
            (sendWarnLogs inp.newSendResult ++
              [ScreenEffect.constructEncoder inp.captureWidth inp.captureHeight,
               ScreenEffect.encoderCreated inp.captureWidth inp.captureHeight]), by simp⟩,
            ?_, rfl⟩
          cases hw : inp.newSendResult <;>
            simp [sendWarnLogs, List.countP_cons, ScreenEffect.isEncode]
    · have hre2 : st.needsReinit inp.captureWidth inp.captureHeight = false := by
        simpa using hre
      cases henc : st.video_encoder with
      | none => exact absurd (by simp [ScreenStreamHandler.needsReinit, henc]) hre
      | some enc =>
        have hsz : enc.check_size inp.captureWidth inp.captureHeight = true := by
          have h3 := hre2
          simp [ScreenStreamHandler.needsReinit, henc] at h3
          exact h3
        have hwh : enc.width = inp.captureWidth ∧ enc.height = inp.captureHeight := by
          have h4 := hsz
          simp [VideoEncoder.check_size] at h4
          exact h4
        refine ⟨_, _, process_noreinit_eq st inp s enc hnlt henc hsz, ?_, ?_, ?_⟩
        · simp [List.countP_cons, ScreenEffect.isCapture]
        · intro htrue
          rw [hre2] at htrue
          simp at htrue
        · exact fun _ => ⟨⟨[], by simp [hwh.1, hwh.2]⟩,
            by simp [List.countP_cons, ScreenEffect.isEncode], rfl⟩
  · intro inp2 h2
    refine ⟨_, process_rate_eq st inp2 s h2, ?_, ?_⟩ <;>
      cases hr : inp2.rateSendResult <;>
        simp [sendWarnLogs, List.countP_cons, ScreenEffect.isCapture, ScreenEffect.isEncode]

/-- Witness for C2: empty binding, `update_interval` 40 ms, an eligible tick
at 40 ms (size 100x100, construction succeeding). -/
theorem screen_cycle_on_eligible_tick_witness :
    (40 * nsPerMs ≤ 40 * nsPerMs - 0) ∧
    ((∃ st2 evs, ScreenStreamHandler.process ⟨none, 40 * nsPerMs, 0⟩
        ⟨40 * nsPerMs, 41 * nsPerMs, 100, 100, none, none, none⟩ (OwnedMessage.text "t") =
        some (st2, evs) ∧
      evs.countP ScreenEffect.isCapture = 1 ∧
      (((⟨none, 40 * nsPerMs, 0⟩ : ScreenStreamHandler).needsReinit 100 100 &&
          (none : Option String).isSome) = true →
        evs.countP ScreenEffect.isEncode = 0 ∧ st2 = ⟨none, 40 * nsPerMs, 0⟩) ∧
      (((⟨none, 40 * nsPerMs, 0⟩ : ScreenStreamHandler).needsReinit 100 100 &&
          (none : Option String).isSome) = false →
        (∃ mid, evs = ScreenEffect.capture :: mid ++ [ScreenEffect.encode 100 100]) ∧
        evs.countP ScreenEffect.isEncode = 1 ∧
        st2.last_update = 41 * nsPerMs)) ∧
    (∀ inp2 : TickInput, inp2.now - 0 < 40 * nsPerMs →
      ∃ evs2, ScreenStreamHandler.process ⟨none, 40 * nsPerMs, 0⟩ inp2
          (OwnedMessage.text "t") =
        some (⟨none, 40 * nsPerMs, 0⟩, evs2) ∧
      evs2.countP ScreenEffect.isCapture = 0 ∧
      evs2.countP ScreenEffect.isEncode = 0)) :=
  ⟨by decide,
    screen_cycle_on_eligible_tick ⟨none, 40 * nsPerMs, 0⟩
      ⟨40 * nsPerMs, 41 * nsPerMs, 100, 100, none, none, none⟩ "t" (by decide)⟩

/-! ### Claim theorems: encoder reinitialization (C3) -/

/-- C3: on a non-rate-limited tick, the `"new"` control frame is sent and
the encoder constructor is invoked exactly when no encoder is bound or the
captured dimensions differ from the bound encoder's (that is exactly
`needsReinit`); and on the capture-size sequence
[(100,100), (100,100), (200,150), (200,150)] with all constructions
succeeding, the full effect trace shows `"new"` sent only at the start of
cycles 1 and 3 and the encoder constructed exactly twice. -/
theorem screen_reinit_exactly_on_size_change (st : ScreenStreamHandler) (inp : TickInput)
    (s : String) (h : st.update_interval ≤ inp.now - st.last_update) :
    (∃ st2 evs, ScreenStreamHandler.process st inp (OwnedMessage.text s) = some (st2, evs) ∧
      evs.countP ScreenEffect.isNewFrame =
        (if st.needsReinit inp.captureWidth inp.captureHeight then 1 else 0) ∧
      evs.countP ScreenEffect.isConstruct =
        (if st.needsReinit inp.captureWidth inp.captureHeight then 1 else 0)) ∧
    (ScreenStreamHandler.processTicks ⟨none, 40 * nsPerMs, 0⟩
        [⟨40 * nsPerMs, 40 * nsPerMs, 100, 100, none, none, none⟩,
         ⟨80 * nsPerMs, 80 * nsPerMs, 100, 100, none, none, none⟩,
         ⟨120 * nsPerMs, 120 * nsPerMs, 200, 150, none, none, none⟩,
         ⟨160 * nsPerMs, 160 * nsPerMs, 200, 150, none, none, none⟩] =
      some (⟨some ⟨200, 150⟩, 40 * nsPerMs, 160 * nsPerMs⟩,
        [ScreenEffect.capture, ScreenEffect.sendText "new",
         ScreenEffect.constructEncoder 100 100, ScreenEffect.encoderCreated 100 100,
         ScreenEffect.encode 100 100,
         ScreenEffect.capture, ScreenEffect.encode 100 100,
         ScreenEffect.capture, ScreenEffect.sendText "new",
         ScreenEffect.constructEncoder 200 150, ScreenEffect.encoderCreated 200 150,
         ScreenEffect.encode 200 150,
         ScreenEffect.capture, ScreenEffect.encode 200 150])) ∧
    ([ScreenEffect.capture, ScreenEffect.sendText "new",
      ScreenEffect.constructEncoder 100 100, ScreenEffect.encoderCreated 100 100,
      ScreenEffect.encode 100 100,
      ScreenEffect.capture, ScreenEffect.encode 100 100,
      ScreenEffect.capture, ScreenEffect.sendText "new",
      ScreenEffect.constructEncoder 200 150, ScreenEffect.encoderCreated 200 150,
      ScreenEffect.encode 200 150,
      ScreenEffect.capture, ScreenEffect.encode 200 150].countP ScreenEffect.isNewFrame = 2 ∧
     [ScreenEffect.capture, ScreenEffect.sendText "new",
      ScreenEffect.constructEncoder 100 100, ScreenEffect.encoderCreated 100 100,
      ScreenEffect.encode 100 100,
      ScreenEffect.capture, ScreenEffect.encode 100 100,
      ScreenEffect.capture, ScreenEffect.sendText "new",
      ScreenEffect.constructEncoder 200 150, ScreenEffect.encoderCreated 200 150,
      ScreenEffect.encode 200 150,
      ScreenEffect.capture, ScreenEffect.encode 200 150].countP ScreenEffect.isConstruct = 2) := by
  have hnlt : ¬ inp.now - st.last_update < st.update_interval := not_lt.mpr h
  refine ⟨?_, by decide, by decide, by decide⟩
  by_cases hre : st.needsReinit inp.captureWidth inp.captureHeight = true
  · rw [hre]
    cases hini : inp.encoderInit with
    | some err =>
      refine ⟨st, _, process_reinit_fail_eq st inp s err hnlt hre hini, ?_, ?_⟩ <;>
        cases hw : inp.newSendResult <;>
          simp [sendWarnLogs, List.countP_cons, ScreenEffect.isNewFrame,
            ScreenEffect.isConstruct]
    | none =>
      refine ⟨_, _, process_reinit_ok_eq st inp s hnlt hre hini, ?_, ?_⟩ <;>
        cases hw : inp.newSendResult <;>
          simp [sendWarnLogs, List.countP_cons, ScreenEffect.isNewFrame,
            ScreenEffect.isConstruct]
  · have hre2 : st.needsReinit inp.captureWidth inp.captureHeight = false := by
      simpa using hre
    rw [hre2]
    cases henc : st.video_encoder with
    | none => exact absurd (by simp [ScreenStreamHandler.needsReinit, henc]) hre
    | some enc =>
      have hsz : enc.check_size inp.captureWidth inp.captureHeight = true := by
        have h3 := hre2
        simp [ScreenStreamHandler.needsReinit, henc] at h3
        exact h3
      refine ⟨_, _, process_noreinit_eq st inp s enc hnlt henc hsz, ?_, ?_⟩ <;>
        simp [List.countP_cons, ScreenEffect.isNewFrame, ScreenEffect.isConstruct]

/-- Witness for C3: empty binding, eligible tick at 40 ms with size
100x100. -/
theorem screen_reinit_exactly_on_size_change_witness :
    (40 * nsPerMs ≤ 40 * nsPerMs - 0) ∧
    (∃ st2 evs, ScreenStreamHandler.process ⟨none, 40 * nsPerMs, 0⟩
        ⟨40 * nsPerMs, 40 * nsPerMs, 100, 100, none, none, none⟩ (OwnedMessage.text "t") =
        some (st2, evs) ∧
      evs.countP ScreenEffect.isNewFrame =
        (if (⟨none, 40 * nsPerMs, 0⟩ : ScreenStreamHandler).needsReinit 100 100 then 1 else 0) ∧
      evs.countP ScreenEffect.isConstruct =
        (if (⟨none, 40 * nsPerMs, 0⟩ : ScreenStreamHandler).needsReinit 100 100 then 1 else 0)) :=
  ⟨by decide,
    (screen_reinit_exactly_on_size_change ⟨none, 40 * nsPerMs, 0⟩
      ⟨40 * nsPerMs, 40 * nsPerMs, 100, 100, none, none, none⟩ "t" (by decide)).1⟩

/-! ### Claim theorems: encoder construction failure (C4) -/

/-- C4 counterexample: an encoder for 100x100 is bound, the capture reports
200x150 and construction for that size fails.  The tick aborts with the
state unchanged, but the encoder binding is NOT left empty: the previous
encoder is still bound. -/
theorem encoder_fail_binding_not_empty_cex :
    ScreenStreamHandler.process ⟨some ⟨100, 100⟩, 40 * nsPerMs, 0⟩
        ⟨40 * nsPerMs, 40 * nsPerMs, 200, 150, some "failed to create encoder", none, none⟩
        (OwnedMessage.text "t") =
      some (⟨some ⟨100, 100⟩, 40 * nsPerMs, 0⟩,
        [ScreenEffect.capture, ScreenEffect.sendText "new",
         ScreenEffect.constructEncoder 200 150,
         ScreenEffect.logWarn "failed to create encoder"]) ∧
    (⟨some ⟨100, 100⟩, 40 * nsPerMs, 0⟩ : ScreenStreamHandler).video_encoder ≠ none := by
  refine ⟨by decide, by decide⟩

/-- C4 (amended): if encoder construction fails on an eligible tick, the
handler logs a warning and aborts the tick: the returned state is exactly
the previous one (`last_update` unchanged, encoder binding unchanged — so
never half-initialized: still empty if it was empty, otherwise still the
previous intact encoder), no encode and no successful construction happen,
and the failure is not fatal (`some` result, never a panic).  Since the
state is unchanged, any next eligible tick reporting the same capture size
attempts the exact same cycle: it re-sends `"new"` and re-invokes the
constructor for the same dimensions. -/
theorem encoder_fail_aborts_tick (st : ScreenStreamHandler) (inp inp2 : TickInput)
    (s : String) (err : String)
    (h : st.update_interval ≤ inp.now - st.last_update)
    (hre : st.needsReinit inp.captureWidth inp.captureHeight = true)
    (hfail : inp.encoderInit = some err)
    (h2 : st.update_interval ≤ inp2.now - st.last_update)
    (hw2 : inp2.captureWidth = inp.captureWidth)
    (hh2 : inp2.captureHeight = inp.captureHeight) :
    (∃ evs, ScreenStreamHandler.process st inp (OwnedMessage.text s) = some (st, evs) ∧
      ScreenEffect.logWarn err ∈ evs ∧
      evs.countP ScreenEffect.isEncode = 0 ∧
      evs.countP ScreenEffect.isCreated = 0) ∧
    (∃ st3 evs2, ScreenStreamHandler.process st inp2 (OwnedMessage.text s) = some (st3, evs2) ∧
      ScreenEffect.sendText "new" ∈ evs2 ∧
      ScreenEffect.constructEncoder inp.captureWidth inp.captureHeight ∈ evs2) := by
  have hnlt : ¬ inp.now - st.last_update < st.update_interval := not_lt.mpr h
  have hnlt2 : ¬ inp2.now - st.last_update < st.update_interval := not_lt.mpr h2
  have hre2 : st.needsReinit inp2.captureWidth inp2.captureHeight = true := by
    rw [hw2, hh2]; exact hre
  constructor
  · refine ⟨_, process_reinit_fail_eq st inp s err hnlt hre hfail, ?_, ?_, ?_⟩ <;>
      cases hw : inp.newSendResult <;>
        simp [sendWarnLogs, List.countP_cons, ScreenEffect.isWarn, ScreenEffect.isEncode,
          ScreenEffect.isCreated]
  · cases hini2 : inp2.encoderInit with
    | some err2 =>
      refine ⟨st, _, process_reinit_fail_eq st inp2 s err2 hnlt2 hre2 hini2, ?_, ?_⟩ <;>
        simp [sendWarnLogs, hw2, hh2]
    | none =>
      refine ⟨_, _, process_reinit_ok_eq st inp2 s hnlt2 hre2 hini2, ?_, ?_⟩ <;>
        simp [sendWarnLogs, hw2, hh2]

/-- Witness for C4 (amended): encoder for 100x100 bound, capture 200x150,
construction failing on the first eligible tick and retried (successfully)
on the next. -/
theorem encoder_fail_aborts_tick_witness :
    (40 * nsPerMs ≤ 40 * nsPerMs - 0) ∧
    ((⟨some ⟨100, 100⟩, 40 * nsPerMs, 0⟩ : ScreenStreamHandler).needsReinit 200 150 = true) ∧
    (40 * nsPerMs ≤ 80 * nsPerMs - 0) ∧
    ((∃ evs, ScreenStreamHandler.process ⟨some ⟨100, 100⟩, 40 * nsPerMs, 0⟩
        ⟨40 * nsPerMs, 40 * nsPerMs, 200, 150, some "enc fail", none, none⟩
        (OwnedMessage.text "t") =
        some (⟨some ⟨100, 100⟩, 40 * nsPerMs, 0⟩, evs) ∧
      ScreenEffect.logWarn "enc fail" ∈ evs ∧
      evs.countP ScreenEffect.isEncode = 0 ∧
      evs.countP ScreenEffect.isCreated = 0) ∧
    (∃ st3 evs2, ScreenStreamHandler.process ⟨some ⟨100, 100⟩, 40 * nsPerMs, 0⟩
        ⟨80 * nsPerMs, 80 * nsPerMs, 200, 150, none, none, none⟩ (OwnedMessage.text "t") =
        some (st3, evs2) ∧
      ScreenEffect.sendText "new" ∈ evs2 ∧
      ScreenEffect.constructEncoder 200 150 ∈ evs2)) :=
  ⟨by decide, by decide, by decide,
    encoder_fail_aborts_tick ⟨some ⟨100, 100⟩, 40 * nsPerMs, 0⟩
      ⟨40 * nsPerMs, 40 * nsPerMs, 200, 150, some "enc fail", none, none⟩
      ⟨80 * nsPerMs, 80 * nsPerMs, 200, 150, none, none, none⟩ "t" "enc fail"
      (by decide) (by decide) rfl (by decide) rfl rfl⟩

/-! ### Claim theorems: send-error classification (C7) -/

/-- C7 counterexample: a broken-pipe write failure on the backpressure
control-frame send path (lines 76 to 78) DOES produce a warning-level log
entry — the broken-pipe trace-level classification exists only inside the
encoder emission callback, not on the tick-path sends. -/
theorem broken_pipe_warns_on_tick_path_cex :
    ScreenStreamHandler.process ⟨none, 5 * nsPerMs, 0⟩
        ⟨0, 0, 0, 0, none,
         some (WebSocketError.ioError IoErrorKind.brokenPipe "Broken pipe (os error 32)"),
         none⟩
        (OwnedMessage.text "t") =
      some (⟨none, 5 * nsPerMs, 0⟩,
        [ScreenEffect.sendText "@5",
         ScreenEffect.logWarn "Error sending video: Broken pipe (os error 32)"]) ∧
    (WebSocketError.ioError IoErrorKind.brokenPipe "Broken pipe (os error 32)").isBrokenPipe =
      true ∧
    [ScreenEffect.sendText "@5",
     ScreenEffect.logWarn "Error sending video: Broken pipe (os error 32)"].countP
      ScreenEffect.isWarn = 1 := by
  refine ⟨by decide, by decide, by decide⟩

/-- C7 (amended): write failures are classified per call site.  In the
encoder emission callback, a broken-pipe IO failure produces no
warning-level entry and exactly one trace-level entry, while any other
failure produces exactly one warning-level entry and no trace entry; on the
tick-path sends (the `"@k"` and `"new"` control frames) ANY failure —
broken pipe included — produces exactly one warning-level entry.  In every
case the error is swallowed: the handler still returns normally, so
processing continues on subsequent ticks. -/
theorem send_error_classification (data : List Nat) (err : WebSocketError)
    (st : ScreenStreamHandler) (inp : TickInput) (m : OwnedMessage) :
    (emitCallback data (some err)).countP ScreenEffect.isWarn =
      (if err.isBrokenPipe then 0 else 1) ∧
    (emitCallback data (some err)).countP ScreenEffect.isTrace =
      (if err.isBrokenPipe then 1 else 0) ∧
    (sendWarnLogs (some err)).countP ScreenEffect.isWarn = 1 ∧
    (emitCallback data none).countP ScreenEffect.isWarn = 0 ∧
    (sendWarnLogs none).countP ScreenEffect.isWarn = 0 ∧
    (ScreenStreamHandler.process st inp m).isSome = true := by
  refine ⟨?_, ?_, ?_,
    by simp [emitCallback, List.countP_cons, ScreenEffect.isWarn],
    by simp [sendWarnLogs], process_isSome st inp m⟩ <;>
    rcases err with ⟨_ | _, msg⟩ | msg <;>
      simp [emitCallback, sendWarnLogs, WebSocketError.isBrokenPipe, List.countP_cons,
        ScreenEffect.isWarn, ScreenEffect.isTrace]

/-! ### Claim theorems: `"new"` precedes construction (C10) -/

/-- In a list of the shape `a :: (L1 ++ b :: L2)` the pair `[a, b]` occurs
as a sublist, in this order. -/
theorem sublist_cons_append_cons {α : Type} (a b : α) (L1 L2 : List α) :
    List.Sublist [a, b] (a :: (L1 ++ b :: L2)) :=
  List.Sublist.cons₂ a
    (List.Sublist.trans (List.Sublist.cons₂ b (List.nil_sublist L2))
      (List.sublist_append_right L1 (b :: L2)))

/-- C10: whenever the reinit branch is entered, the `"new"` control frame is
sent strictly before `VideoEncoder::new` is attempted (they occur in that
order as a sublist of the effect trace); if construction then fails, the
client has received `"new"` but no encode happens (hence no binary frame of
a new cycle follows); and over the concrete two-tick run in which the first
construction fails and the retry succeeds, two `"new"` frames are sent
against a single successful construction. -/
theorem new_frame_precedes_construction (st : ScreenStreamHandler) (inp : TickInput)
    (s : String)
    (h : st.update_interval ≤ inp.now - st.last_update)
    (hre : st.needsReinit inp.captureWidth inp.captureHeight = true) :
    (∃ st2 evs, ScreenStreamHandler.process st inp (OwnedMessage.text s) = some (st2, evs) ∧
      List.Sublist [ScreenEffect.sendText "new",
        ScreenEffect.constructEncoder inp.captureWidth inp.captureHeight] evs ∧
      (inp.encoderInit.isSome = true →
        ScreenEffect.sendText "new" ∈ evs ∧ evs.countP ScreenEffect.isEncode = 0)) ∧
    (ScreenStreamHandler.processTicks ⟨none, 40 * nsPerMs, 0⟩
        [⟨40 * nsPerMs, 40 * nsPerMs, 100, 100, some "enc fail", none, none⟩,
         ⟨80 * nsPerMs, 80 * nsPerMs, 100, 100, none, none, none⟩] =
      some (⟨some ⟨100, 100⟩, 40 * nsPerMs, 80 * nsPerMs⟩,
        [ScreenEffect.capture, ScreenEffect.sendText "new",
         ScreenEffect.constructEncoder 100 100, ScreenEffect.logWarn "enc fail",
         ScreenEffect.capture, ScreenEffect.sendText "new",
         ScreenEffect.constructEncoder 100 100, ScreenEffect.encoderCreated 100 100,
         ScreenEffect.encode 100 100]) ∧
     [ScreenEffect.capture, ScreenEffect.sendText "new",
      ScreenEffect.constructEncoder 100 100, ScreenEffect.logWarn "enc fail",
      ScreenEffect.capture, ScreenEffect.sendText "new",
      ScreenEffect.constructEncoder 100 100, ScreenEffect.encoderCreated 100 100,
      ScreenEffect.encode 100 100].countP ScreenEffect.isNewFrame = 2 ∧
     [ScreenEffect.capture, ScreenEffect.sendText "new",
      ScreenEffect.constructEncoder 100 100, ScreenEffect.logWarn "enc fail",
      ScreenEffect.capture, ScreenEffect.sendText "new",
      ScreenEffect.constructEncoder 100 100, ScreenEffect.encoderCreated 100 100,
      ScreenEffect.encode 100 100].countP ScreenEffect.isCreated = 1 ∧
     1 < 2) := by
  have hnlt : ¬ inp.now - st.last_update < st.update_interval := not_lt.mpr h
  refine ⟨?_, by decide, by decide, by decide, by decide⟩
  cases hini : inp.encoderInit with
  | some err =>
    refine ⟨st, _, process_reinit_fail_eq st inp s err hnlt hre hini, ?_, ?_⟩
    · exact (sublist_cons_append_cons (ScreenEffect.sendText "new")
        (ScreenEffect.constructEncoder inp.captureWidth inp.captureHeight)
        (sendWarnLogs inp.newSendResult) [ScreenEffect.logWarn err]).cons ScreenEffect.capture
    · refine fun _ => ⟨by simp, ?_⟩
      cases hw : inp.newSendResult <;>
        simp [sendWarnLogs, List.countP_cons, ScreenEffect.isEncode]
  | none =>
    refine ⟨_, _, process_reinit_ok_eq st inp s hnlt hre hini, ?_, ?_⟩
    · exact (sublist_cons_append_cons (ScreenEffect.sendText "new")
        (ScreenEffect.constructEncoder inp.captureWidth inp.captureHeight)
        (sendWarnLogs inp.newSendResult)
        [ScreenEffect.encoderCreated inp.captureWidth inp.captureHeight,
         ScreenEffect.encode inp.captureWidth inp.captureHeight]).cons ScreenEffect.capture
    · intro htrue
      simp at htrue

/-- Witness for C10: empty binding, eligible tick at 40 ms with failing
construction. -/
theorem new_frame_precedes_construction_witness :
    (40 * nsPerMs ≤ 40 * nsPerMs - 0) ∧
    ((⟨none, 40 * nsPerMs, 0⟩ : ScreenStreamHandler).needsReinit 100 100 = true) ∧
    (∃ st2 evs, ScreenStreamHandler.process ⟨none, 40 * nsPerMs, 0⟩
        ⟨40 * nsPerMs, 40 * nsPerMs, 100, 100, some "enc fail", none, none⟩
        (OwnedMessage.text "t") = some (st2, evs) ∧
      List.Sublist [ScreenEffect.sendText "new", ScreenEffect.constructEncoder 100 100] evs ∧
      ((some "enc fail" : Option String).isSome = true →
        ScreenEffect.sendText "new" ∈ evs ∧ evs.countP ScreenEffect.isEncode = 0)) :=
  ⟨by decide, by decide,
    (new_frame_precedes_construction ⟨none, 40 * nsPerMs, 0⟩
      ⟨40 * nsPerMs, 40 * nsPerMs, 100, 100, some "enc fail", none, none⟩ "t"
      (by decide) (by decide)).1⟩
